import Mathlib

/-!
Verification development for an MQTT-based IoT command/telemetry system:
a sensor agent (`sensor_simulator.py`), a command sender (`command_sender.py`),
a telemetry collector (`data_collector.py`) and a dashboard read path
(`iot-dashboard.py`).  The Python sources are shallowly embedded below:
JSON payloads become an inductive `Json` type, SQLite rows become `Row`
values in an append-only list (the list position determines the
autoincrement `id`), and the agent's flag-guarded measurement loop becomes
a step function driven by an explicit schedule of flag writes and a
per-tick connectivity oracle.  The paho client dispatches `on_message`
callbacks serially on its single network-loop thread, so the schedule the
program realizes during a run is the empty one; `dispatchSerial` models
that serialized delivery, and nonempty schedules appear only as an
over-approximation favouring claims about mid-run cancellation.
-/

/-- JSON values as produced by `json.loads` / consumed by `json.dumps`.
JSON numbers are modelled as rationals (Python floats round-trip exactly
through `json.dumps`/`json.loads`, and no claim depends on binary-float
rounding of the transported values).  JSON `null` doubles as Python `None`,
which is exactly how `json.loads` maps it.  Object field lists are treated
as canonical (no duplicate keys), matching `json.loads` output. -/
inductive Json where
  | null : Json
  | bool (b : Bool) : Json
  | num (q : ℚ) : Json
  | str (s : String) : Json
  | arr (elems : List Json) : Json
  | obj (fields : List (String × Json)) : Json

/-- Python `dict.get(key, default)` on a decoded JSON object: the stored
value (including a stored `null`, i.e. Python `None`) when the key is
present, the default otherwise. -/
def pyGet (fields : List (String × Json)) (key : String) (dflt : Json) : Json :=
  match fields with
  | [] => dflt
  | (k, v) :: rest => if k = key then v else pyGet rest key dflt

/-- Python `x is None` test on a decoded JSON value. -/
def isNullJ : Json → Bool
  | Json.null => true
  | _ => false

/-- A value as stored in the `measurement_time` / `value` columns of the
`sensor_readings` table (both declared `REAL`).  `sqlite3` binds Python
`None`/`bool`/`int`/`float`/`str` (booleans as the integers 1/0, which the
REAL-affinity column stores as 1.0/0.0); any other Python type (lists,
dicts) raises a binding error.  REAL affinity of numeric-looking text is
not modelled; no claim below involves numeric strings. -/
inductive SqlValue where
  | null : SqlValue
  | real (q : ℚ) : SqlValue
  | text (s : String) : SqlValue
deriving DecidableEq, Repr

/-- The `sqlite3` parameter binding of a decoded JSON value into a
REAL-affinity column: `none` models the `sqlite3` binding exception raised
for unsupported types (arrays, objects), which `insert_data` catches in its
generic `except` clause. -/
def toSql : Json → Option SqlValue
  | Json.null => some SqlValue.null
  | Json.bool b => some (SqlValue.real (if b then 1 else 0))
  | Json.num q => some (SqlValue.real q)
  | Json.str s => some (SqlValue.text s)
  | Json.arr _ => none
  | Json.obj _ => none

/-- One row of the `sensor_readings` table, excluding the autoincrement
`id` (a row's `id` is its 1-based position in the append-only store list)
and the defaulted `system_timestamp` column, which no claim reads. -/
structure Row where
  topic : String
  measurement_time : SqlValue
  value : SqlValue
deriving DecidableEq, Repr

/-- Diagnostic emitted by `insert_data` (`data_collector.py`): the
`[ERROR] Could not decode JSON` branch, the `[WARNING] ... missing 'value'`
branch, the generic `[DB ERROR]` except-branch, and the `Data saved`
happy path. -/
inductive Diag where
  | saved : Diag
  | parseError : Diag
  | missingField : Diag
  | dbError : Diag
deriving DecidableEq, Repr

/-- `insert_data(topic, payload_json)` from `data_collector.py`, lines
50-83.  `payload = none` models a `json.JSONDecodeError` from
`json.loads`.  A decoded non-object payload makes `data.get` raise
`AttributeError`, caught by the generic `except Exception` branch.
`measurement_time = data.get('timestamp', time.time())` is modelled with
the receipt time passed explicitly; `value = data.get('value')` followed by
`if value is not None` is the null test.  A binding failure inside
`cursor.execute` (array/object field values) is caught by the same generic
except branch and commits nothing. -/
def insert_data (topic : String) (payload : Option Json) (receipt : ℚ)
    (store : List Row) : List Row × Diag :=
  match payload with
  | none => (store, Diag.parseError)
  | some (Json.obj fields) =>
    let mt := pyGet fields "timestamp" (Json.num receipt)
    let v := pyGet fields "value" Json.null
    if isNullJ v then (store, Diag.missingField)
    else
      match toSql mt, toSql v with
      | some mtS, some vS => (store ++ [⟨topic, mtS, vS⟩], Diag.saved)
      | _, _ => (store, Diag.dbError)
  | some _ => (store, Diag.dbError)

/-- `SensorSimulator.send_sensor_data(value, timestamp)` from
`sensor_simulator.py`, lines 188-206: when not connected it reports and
returns without publishing (`none`); otherwise it publishes exactly one
JSON payload `{"timestamp": ..., "value": ..., "sensor_type": ...}` on
topic `{topic_prefix}/{sensor_type}`. -/
def send_sensor_data (connected : Bool) (pfx sensorType : String)
    (value timestamp : ℚ) : Option (String × Json) :=
  if connected then
    some (pfx ++ "/" ++ sensorType,
      Json.obj [("timestamp", Json.num timestamp), ("value", Json.num value),
                ("sensor_type", Json.str sensorType)])
  else none

/-- Result of `CommandSender.send_command` (`command_sender.py`, lines
122-138): not connected, publish accepted by the client (`MQTT_ERR_SUCCESS`),
or publish rejected with a nonzero return code. -/
inductive SendResult where
  | sent : SendResult
  | publishFailed : SendResult
  | notConnected : SendResult
deriving DecidableEq, Repr

/-- `CommandSender.send_command(sensor_id, command_data)`: if the client is
not connected it returns immediately with no publish; otherwise it performs
exactly one `client.publish` to `commands/{sensor_id}` and reports the
return code.  The first component collects the publishes performed by the
call. -/
def send_command (connected : Bool) (sensorId : String) (commandData : Json)
    (rcOk : Bool) : List (String × Json) × SendResult :=
  if connected then
    ([("commands/" ++ sensorId, commandData)],
     if rcOk then SendResult.sent else SendResult.publishFailed)
  else ([], SendResult.notConnected)

/-- An asynchronous write to the agent's shared `command_active` flag:
`setFalse` is the `stop` handler (`self.command_active = False`), `setTrue`
is the assignment a second `measure` handler performs before its own loop
(`self.command_active = True`). -/
inductive FlagWrite where
  | setTrue : FlagWrite
  | setFalse : FlagWrite
deriving DecidableEq, Repr

/-- The flag writes applied around one iteration of the measurement loop:
`pre` writes land before the iteration's `if not self.command_active`
check, `post` writes between that check and the next one.  The paho client
(`loop_start()`) dispatches `on_message` callbacks serially on its single
network-loop thread and the measurement loop runs inside such a callback,
so no other handler can write the flag while the loop runs: the schedule
the program itself realizes is always the empty one (`schedEmpty`).
Nonempty schedules over-approximate a hypothetical concurrent dispatcher
and are used below only a fortiori, to show that even under that most
favourable interleaving a superseding `measure` write could not cancel a
run. -/
structure Tick where
  pre : List FlagWrite
  post : List FlagWrite
deriving DecidableEq, Repr

/-- Sequential effect of a list of flag writes on the flag. -/
def applyWrites : Bool → List FlagWrite → Bool
  | b, [] => b
  | _, FlagWrite.setTrue :: ws => applyWrites true ws
  | _, FlagWrite.setFalse :: ws => applyWrites false ws

/-- Outcome of one loop iteration that passed the flag check:
`send_sensor_data` publishes when connected and reports-and-skips when
not (its Boolean result is ignored by the loop). -/
inductive TickResult where
  | published : TickResult
  | skippedDisconnected : TickResult
deriving DecidableEq, Repr

/-- The `for i in range(count)` measurement loop of
`SensorSimulator.on_message` (`sensor_simulator.py`, lines 79-89), as a
trace of iteration outcomes.  Arguments: remaining iterations, current
loop index `i`, current value of `self.command_active`, the schedule of
asynchronous flag writes, and the per-tick connectivity seen by
`send_sensor_data`.  Each iteration applies the writes delivered before
its check, breaks if the flag is false, otherwise samples-and-publishes
(recording whether the client was connected) and applies the writes
delivered after the check. -/
def measureTrace : Nat → Nat → Bool → (Nat → Tick) → (Nat → Bool) → List TickResult
  | 0, _, _, _, _ => []
  | Nat.succ n, i, flag, sched, conn =>
    let f1 := applyWrites flag (sched i).pre
    if f1 then
      (if conn i then TickResult.published else TickResult.skippedDisconnected)
        :: measureTrace n (i + 1) (applyWrites f1 (sched i).post) sched conn
    else []

/-- The observable result of the `measure` branch of `on_message`: the
trace of loop iterations, and the value of `self.command_active` when the
handler returns (the line after the loop unconditionally resets it to
`False`, so the agent is back in Idle). -/
structure MeasureResult where
  trace : List TickResult
  commandActiveAfter : Bool
deriving DecidableEq, Repr

/-- The `measure` branch of `SensorSimulator.on_message`: sets
`self.command_active = True`, runs `for i in range(count)` (empty for a
non-positive `count`, hence `Int.toNat`), then resets the flag. -/
def onMessageMeasure (count : Int) (sched : Nat → Tick) (conn : Nat → Bool) :
    MeasureResult :=
  ⟨measureTrace count.toNat 0 true sched conn, false⟩

/-- A decoded command envelope, after extraction of the `command` field and
the `measure` parameters (`count` via `command_data.get('count', 10)`).
`interval`, `base` and `variance` only affect timing and sampled values,
which the counted-publish claims do not read, so only `count` is carried. -/
inductive Command where
  | measure (count : Int) : Command
  | stop : Command
  | other (s : String) : Command

/-- Outcome of `SensorSimulator.on_message` on a decoded command: the
`measure` branch runs a measurement, the `stop` branch clears the flag, and
any other command value is logged as unknown with no state change. -/
inductive OnMsgOutcome where
  | measured (r : MeasureResult) : OnMsgOutcome
  | stopAck : OnMsgOutcome
  | unknownCommand : OnMsgOutcome
deriving DecidableEq, Repr

/-- Dispatch of `SensorSimulator.on_message` over the decoded `command`
field (`sensor_simulator.py`, lines 69-96). -/
def on_message_cmd (cmd : Command) (sched : Nat → Tick) (conn : Nat → Bool) :
    OnMsgOutcome :=
  match cmd with
  | Command.measure c => OnMsgOutcome.measured (onMessageMeasure c sched conn)
  | Command.stop => OnMsgOutcome.stopAck
  | Command.other _ => OnMsgOutcome.unknownCommand

/-- The quiet schedule: no stop and no superseding measure is delivered at
any point of the run. -/
def schedEmpty : Nat → Tick := fun _ => ⟨[], []⟩

/-- A single superseding `measure` envelope whose handler's first state
effect, `self.command_active = True`, is granted delivery before the flag
check of iteration `j`.  Under the program's serialized callback dispatch
the superseding handler actually runs even later — only after the full
loop returns — with the same outcome (the run is not shortened); this
schedule gives the cancel-then-replace claim the interleaving most
favourable to it. -/
def measureAt (j : Nat) : Nat → Tick :=
  fun k => if k = j then ⟨[FlagWrite.setTrue], []⟩ else ⟨[], []⟩

/-- Serialized callback dispatch, as paho-mqtt's `loop_start()` performs
it: one network-loop thread reads inbound packets and invokes `on_message`
for one message at a time, so an envelope that arrives while a handler is
still running — in particular while the measure branch's loop sleeps —
is dispatched only after that handler returns.  A running measurement loop
therefore never observes an external `command_active` write: each
`measure` envelope runs its full loop on the quiet schedule (the handler
itself sets the flag true on entry), and a `stop` handler merely assigns
`False` to a flag that is already `False` between runs, cancelling
nothing. -/
def dispatchSerial : List Command → (Nat → Bool) → List TickResult
  | [], _ => []
  | Command.measure c :: rest, conn =>
    (onMessageMeasure c schedEmpty conn).trace ++ dispatchSerial rest conn
  | Command.stop :: rest, conn => dispatchSerial rest conn
  | Command.other _ :: rest, conn => dispatchSerial rest conn

/-- Connectivity oracle: the client stays connected for the whole run. -/
def connUp : Nat → Bool := fun _ => true

/-- Connectivity oracle: the client is disconnected exactly at tick 0
(the publish there fails) and connected again from tick 1 on. -/
def connDownAt0 : Nat → Bool := fun k => k != 0

/-- SQLite `ORDER BY` comparison on the storage classes that occur in the
`measurement_time` column: NULL sorts before numeric values, numeric values
before text, text lexicographically. -/
def sqlLt : SqlValue → SqlValue → Bool
  | SqlValue.null, SqlValue.null => false
  | SqlValue.null, _ => true
  | _, SqlValue.null => false
  | SqlValue.real x, SqlValue.real y => decide (x < y)
  | SqlValue.real _, SqlValue.text _ => true
  | SqlValue.text _, SqlValue.real _ => false
  | SqlValue.text s, SqlValue.text t => compare s t == Ordering.lt

/-- Insert a row into a list already sorted by descending
`measurement_time`: the row goes before the first strictly-smaller key. -/
def insertRowDesc (r : Row) : List Row → List Row
  | [] => [r]
  | x :: xs =>
    if sqlLt r.measurement_time x.measurement_time then x :: insertRowDesc r xs
    else r :: x :: xs

/-- The sort performed by `ORDER BY measurement_time DESC` in the
dashboard's `/api/readings` query (`iot-dashboard.py`, `get_readings`).
SQL leaves the relative order of equal keys unspecified; this
implementation keeps equal keys in store (id) order. -/
def sortByTimeDesc : List Row → List Row
  | [] => []
  | x :: xs => insertRowDesc x (sortByTimeDesc xs)

/-- The `recent(n)` read path: `SELECT topic, value, measurement_time FROM
sensor_readings ORDER BY measurement_time DESC LIMIT n`. -/
def recentQuery (n : Nat) (store : List Row) : List Row :=
  (sortByTimeDesc store).take n

/-- The dashboard route `get_readings` itself, which fixes `LIMIT 20`. -/
def get_readings (store : List Row) : List Row :=
  recentQuery 20 store

/-- A telemetry row on the default topic with the given measurement time
and value, used in the concrete store states below. -/
def rowT (t v : ℚ) : Row :=
  ⟨"sensors/temperature", SqlValue.real t, SqlValue.real v⟩

/-- Five appended rows (ids 1..5 by position) whose sensor-reported
measurement times strictly decrease with id. -/
def storeDec : List Row :=
  [rowT 50 1, rowT 40 2, rowT 30 3, rowT 20 4, rowT 10 5]

/-- Five appended rows (ids 1..5 by position) whose sensor-reported
measurement times strictly increase with id, the normal append order. -/
def storeInc : List Row :=
  [rowT 10 1, rowT 20 2, rowT 30 3, rowT 40 4, rowT 50 5]

/-- A flag-write list that contains no `setFalse` leaves a true flag true. -/
theorem applyWrites_true (ws : List FlagWrite) (h : FlagWrite.setFalse ∉ ws) :
    applyWrites true ws = true := by
  induction ws with
  | nil => rfl
  | cons w ws ih =>
    cases w with
    | setTrue =>
      have : FlagWrite.setFalse ∉ ws := fun hm => h (List.mem_cons_of_mem _ hm)
      simpa [applyWrites] using ih this
    | setFalse => exact absurd (List.mem_cons_self _ _) h

/-- A run whose schedule contains no `setFalse` from the current index on
performs every remaining iteration; the trace records, per tick, whether
the publish succeeded. -/
theorem measureTrace_noFalse (n : Nat) :
    ∀ (i : Nat) (sched : Nat → Tick) (conn : Nat → Bool),
    (∀ k, i ≤ k → FlagWrite.setFalse ∉ (sched k).pre ∧ FlagWrite.setFalse ∉ (sched k).post) →
    measureTrace n i true sched conn
      = (List.range' i n).map
          (fun k => if conn k then TickResult.published else TickResult.skippedDisconnected) := by
  induction n with
  | zero => intro i sched conn _; rfl
  | succ n ih =>
    intro i sched conn h
    have hp : applyWrites true (sched i).pre = true :=
      applyWrites_true _ (h i (le_refl i)).1
    have hq : applyWrites true (sched i).post = true :=
      applyWrites_true _ (h i (le_refl i)).2
    have hrest : ∀ k, i + 1 ≤ k →
        FlagWrite.setFalse ∉ (sched k).pre ∧ FlagWrite.setFalse ∉ (sched k).post :=
      fun k hk => h k (Nat.le_of_succ_le hk)
    simp only [measureTrace, hp, if_true, hq, List.range'_succ, List.map_cons]
    exact congrArg _ (ih (i + 1) sched conn hrest)

/-- Mapping the publish-outcome function over tick indices under an
always-connected oracle yields only successful publishes. -/
theorem map_conn_true (conn : Nat → Bool) (hc : ∀ k, conn k = true) (l : List Nat) :
    l.map (fun k => if conn k then TickResult.published else TickResult.skippedDisconnected)
      = List.replicate l.length TickResult.published := by
  induction l with
  | nil => rfl
  | cons a l ih => simp [hc a, ih, List.replicate_succ]

/-- C1: a valid `measure` envelope with positive `count = N`, handled by an
agent that stays connected and receives no stop and no superseding measure
during the run, produces exactly `N` successful telemetry publishes and
leaves `command_active` false (the agent is back in Idle when the handler
returns). -/
theorem measure_run_publishes_exactly_count (N : Int) (h : 0 < N)
    (sched : Nat → Tick) (conn : Nat → Bool)
    (hs : ∀ k, sched k = ⟨[], []⟩) (hc : ∀ k, conn k = true) :
    (onMessageMeasure N sched conn).trace
        = List.replicate N.toNat TickResult.published
    ∧ ((onMessageMeasure N sched conn).trace.length : Int) = N
    ∧ (onMessageMeasure N sched conn).commandActiveAfter = false := by
  have hfree : ∀ k, 0 ≤ k →
      FlagWrite.setFalse ∉ (sched k).pre ∧ FlagWrite.setFalse ∉ (sched k).post := by
    intro k _
    constructor <;> simp [hs k]
  have htr : (onMessageMeasure N sched conn).trace
      = List.replicate N.toNat TickResult.published := by
    show measureTrace N.toNat 0 true sched conn = _
    rw [measureTrace_noFalse N.toNat 0 sched conn hfree, map_conn_true conn hc,
      List.length_range']
  refine ⟨htr, ?_, rfl⟩
  rw [htr, List.length_replicate]
  exact_mod_cast Int.toNat_of_nonneg h.le

/-- Witness for C1 at `N = 3`. -/
theorem measure_run_publishes_exactly_count_witness :
    (onMessageMeasure 3 schedEmpty connUp).trace
        = [TickResult.published, TickResult.published, TickResult.published]
    ∧ ((onMessageMeasure 3 schedEmpty connUp).trace.length : Int) = 3
    ∧ (onMessageMeasure 3 schedEmpty connUp).commandActiveAfter = false :=
  measure_run_publishes_exactly_count 3 (by decide) schedEmpty connUp
    (fun _ => rfl) (fun _ => rfl)

/-- C2: the claim fails on the code and the spec is the clear intent.  The
loop's `if not self.command_active: break` and the `stop` branch exist
precisely to cancel a run in flight, but the measurement loop executes
inside `on_message` on the paho client's single network-loop thread, which
dispatches callbacks serially, so a `stop` delivered mid-run is handled
only after the loop has already finished.  Failing input: a `count = 3`
run with a `stop` delivered during one of its sleeps — a halt within one
loop iteration would leave at most 2 total publishes (the latest mid-run
receipt point with a publish still pending is iteration 1's sleep,
`remaining = 1`); the code publishes all 3 and the stop cancels
nothing. -/
theorem stop_delivered_mid_run_does_not_halt :
    dispatchSerial [Command.measure 3, Command.stop] connUp
        = [TickResult.published, TickResult.published, TickResult.published]
    ∧ ¬ (dispatchSerial [Command.measure 3, Command.stop] connUp).length ≤ 2 :=
  ⟨rfl, by decide⟩

/-- C3 counterexample: a run with original `count = 2` receives a
superseding `measure` envelope before iteration 1's check — at that point
it has published only 1 of its 2 records, so it has not completed.  The
claim requires the superseded run to publish strictly fewer than 2
records; in fact the superseding handler's write `command_active = True`
leaves the flag true, the in-flight run is not cancelled, and it publishes
all 2 of them. -/
theorem supersede_does_not_cancel_cex :
    measureTrace 2 0 true (measureAt 1) connUp
        = [TickResult.published, TickResult.published]
    ∧ ¬ (measureTrace 2 0 true (measureAt 1) connUp).length < 2 := by
  constructor
  · rfl
  · decide

/-- C3 amended: a second `measure` envelope delivered while a run is
active does not cancel it.  Its handler's only effect on the shared
`command_active` flag is to set it true, so whatever iteration `j` it
arrives at, the superseded run still performs all `count` of its
iterations, and with an uninterrupted connection publishes its full
original `count` — never strictly fewer. -/
theorem supersede_sets_flag_true_run_completes (count j : Nat) (conn : Nat → Bool) :
    (measureTrace count 0 true (measureAt j) conn).length = count
    ∧ (measureTrace count 0 true (measureAt j) connUp).length = count := by
  have hfree : ∀ (c : Nat → Bool), ∀ k, 0 ≤ k →
      FlagWrite.setFalse ∉ (measureAt j k).pre ∧ FlagWrite.setFalse ∉ (measureAt j k).post := by
    intro c k _
    by_cases hk : k = j <;> simp [measureAt, hk]
  constructor
  · rw [measureTrace_noFalse count 0 (measureAt j) conn (hfree conn)]
    simp [List.length_range']
  · rw [measureTrace_noFalse count 0 (measureAt j) connUp (hfree connUp)]
    simp [List.length_range']

/-- C7 counterexample: during a `count = 2` run the client is disconnected
exactly at tick 0, so that tick's publish fails (`send_sensor_data`
reports and returns `False`).  The claim requires the run to abort with no
further publishes; in fact the loop ignores the result and publishes again
at tick 1. -/
theorem publish_failure_not_aborting_cex :
    measureTrace 2 0 true schedEmpty connDownAt0
      = [TickResult.skippedDisconnected, TickResult.published] := rfl

/-- C7 amended: a failed publish is reported by `send_sensor_data` (it
returns `False` and prints a diagnostic) but the measurement loop never
reads that result: whatever the per-tick connectivity, the run performs
all `count` iterations, and `command_active` is cleared only when the loop
ends — the run is not aborted at the failure. -/
theorem run_continues_after_publish_failure (count : Nat) (conn : Nat → Bool) :
    (measureTrace count 0 true schedEmpty conn).length = count
    ∧ (onMessageMeasure (count : Int) schedEmpty conn).commandActiveAfter = false := by
  have hfree : ∀ k, 0 ≤ k →
      FlagWrite.setFalse ∉ (schedEmpty k).pre ∧ FlagWrite.setFalse ∉ (schedEmpty k).post := by
    intro k _
    constructor <;> simp [schedEmpty]
  constructor
  · rw [measureTrace_noFalse count 0 schedEmpty conn hfree]
    simp [List.length_range']
  · rfl

/-- C9: a `measure` envelope whose `count` is zero or negative is accepted
by the handler without error (`range(count)` is empty, so the loop body
never runs): zero telemetry records are published and the agent is back in
Idle with `command_active = False`. -/
theorem nonpositive_count_accepted_noop (c : Int) (h : c ≤ 0)
    (sched : Nat → Tick) (conn : Nat → Bool) :
    on_message_cmd (Command.measure c) sched conn
      = OnMsgOutcome.measured ⟨[], false⟩ := by
  have h0 : c.toNat = 0 := Int.toNat_eq_zero.mpr h
  simp [on_message_cmd, onMessageMeasure, h0, measureTrace]

/-- Witness for C9 at `count = -3`. -/
theorem nonpositive_count_accepted_noop_witness :
    on_message_cmd (Command.measure (-3)) schedEmpty connUp
      = OnMsgOutcome.measured ⟨[], false⟩ :=
  nonpositive_count_accepted_noop (-3) (by decide) schedEmpty connUp

/-- Inserting a row whose key is strictly below every key in the list
places it at the end. -/
theorem insertRowDesc_all_gt (r : Row) (l : List Row)
    (h : ∀ x ∈ l, sqlLt r.measurement_time x.measurement_time = true) :
    insertRowDesc r l = l ++ [r] := by
  induction l with
  | nil => rfl
  | cons x xs ih =>
    have hx : sqlLt r.measurement_time x.measurement_time = true :=
      h x (List.mem_cons_self _ _)
    have hrest : ∀ y ∈ xs, sqlLt r.measurement_time y.measurement_time = true :=
      fun y hy => h y (List.mem_cons_of_mem _ hy)
    simp [insertRowDesc, hx, ih hrest]

/-- A store whose measurement times strictly increase along the append
order is reversed by the descending time sort. -/
theorem sortByTimeDesc_of_increasing (store : List Row)
    (h : store.Pairwise (fun a b => sqlLt a.measurement_time b.measurement_time = true)) :
    sortByTimeDesc store = store.reverse := by
  induction store with
  | nil => rfl
  | cons a xs ih =>
    rcases List.pairwise_cons.mp h with ⟨ha, hxs⟩
    have hrev : ∀ x ∈ xs.reverse, sqlLt a.measurement_time x.measurement_time = true :=
      fun x hx => ha x (List.mem_reverse.mp hx)
    calc sortByTimeDesc (a :: xs) = insertRowDesc a (sortByTimeDesc xs) := rfl
      _ = insertRowDesc a xs.reverse := by rw [ih hxs]
      _ = xs.reverse ++ [a] := insertRowDesc_all_gt a xs.reverse hrev
      _ = (a :: xs).reverse := (List.reverse_cons a xs).symm

/-- C4 counterexample: five rows are appended (ids 1..5 by position) whose
sensor-reported measurement times strictly decrease with id.  The claim
requires `recent(2)` to return the two highest-id rows (ids 5 and 4) in
descending id order; the query actually orders by `measurement_time DESC`,
so it returns the rows with ids 1 and 2. -/
theorem recent_not_by_id_cex :
    recentQuery 2 storeDec = [rowT 50 1, rowT 40 2]
    ∧ recentQuery 2 storeDec ≠ [rowT 10 5, rowT 20 4] := by
  constructor
  · rfl
  · decide

/-- C4 amended: `recent(n)` (the route fixes `n = 20`) returns the `n`
rows with the greatest `measurement_time` in descending time order; when
measurement times strictly increase with id — the normal append order —
these coincide with the `n` highest-id rows in descending id order, i.e.
the reversed store truncated to `n`. -/
theorem recent_by_time_matches_id_when_monotone (n : Nat) (store : List Row)
    (h : store.Pairwise (fun a b => sqlLt a.measurement_time b.measurement_time = true)) :
    recentQuery n store = store.reverse.take n := by
  unfold recentQuery
  rw [sortByTimeDesc_of_increasing store h]

/-- Witness for the amended C4: on five rows appended with strictly
increasing times, `recent(2)` is the two highest-id rows descending. -/
theorem recent_by_time_matches_id_when_monotone_witness :
    recentQuery 2 storeInc = [rowT 50 5, rowT 40 4] := by
  have h := recent_by_time_matches_id_when_monotone 2 storeInc (by decide)
  rw [h]
  rfl

/-- C5 counterexample: the payload `{"value": null}` is valid JSON whose
`value` field is present (a `dict.get` with a non-null sentinel default
returns the stored null, not the sentinel), yet `insert_data` performs no
store write — `data.get('value')` returns Python `None` for a JSON null
just as for an absent key, and the payload is rejected with the
missing-field diagnostic. -/
theorem ingest_null_value_cex :
    insert_data "sensors/temperature" (some (Json.obj [("value", Json.null)])) 0 []
        = ([], Diag.missingField)
    ∧ pyGet [("value", Json.null)] "value" (Json.str "absent") = Json.null :=
  ⟨rfl, rfl⟩

/-- C5 amended: `insert_data` writes to the store if and only if the
payload parses to a JSON object whose `value` field is present, non-null,
and of a type the database binds (the same for its `timestamp` field when
present).  A JSON parse failure is rejected with the parse-error
diagnostic and no write; a parsed object whose `value` is absent *or JSON
null* is rejected with the missing-field diagnostic and no write; in every
other non-accepting case (non-object JSON, unbindable field values)
nothing is written; and on acceptance exactly one row is appended, whose
`measurement_time` is the bound payload `timestamp` when that key is
present and the ingestor's receipt time otherwise. -/
theorem ingest_policy_characterization (topic : String) (payload : Option Json)
    (receipt : ℚ) (store : List Row) :
    (payload = none → insert_data topic payload receipt store = (store, Diag.parseError))
    ∧ (∀ fields, payload = some (Json.obj fields) →
        pyGet fields "value" Json.null = Json.null →
        insert_data topic payload receipt store = (store, Diag.missingField))
    ∧ (∀ fields v mtS vS, payload = some (Json.obj fields) →
        pyGet fields "value" Json.null = v → v ≠ Json.null →
        toSql (pyGet fields "timestamp" (Json.num receipt)) = some mtS →
        toSql v = some vS →
        insert_data topic payload receipt store
          = (store ++ [⟨topic, mtS, vS⟩], Diag.saved))
    ∧ ((insert_data topic payload receipt store).2 ≠ Diag.saved →
        (insert_data topic payload receipt store).1 = store)
    ∧ ((insert_data topic payload receipt store).2 = Diag.saved →
        (insert_data topic payload receipt store).1.length = store.length + 1) := by
  refine ⟨?_, ?_, ?_, ?_, ?_⟩
  · rintro rfl
    rfl
  · rintro fields rfl hnull
    simp [insert_data, hnull, isNullJ]
  · rintro fields v mtS vS rfl hv hne hmt hval
    have hnn : isNullJ v = false := by
      cases v with
      | null => exact absurd rfl hne
      | bool b => rfl
      | num q => rfl
      | str s => rfl
      | arr l => rfl
      | obj l => rfl
    simp only [insert_data, hv, hnn, Bool.false_eq_true, if_false, hmt, hval]
  · rcases payload with _ | j
    · intro _
      rfl
    · cases j with
      | obj fields =>
        by_cases hn : isNullJ (pyGet fields "value" Json.null) = true
        · intro _
          simp [insert_data, hn]
        · rcases hmt : toSql (pyGet fields "timestamp" (Json.num receipt)) with _ | mtS <;>
            rcases hv : toSql (pyGet fields "value" Json.null) with _ | vS <;>
            simp [insert_data, hn, hmt, hv]
      | null => intro _; rfl
      | bool b => intro _; rfl
      | num q => intro _; rfl
      | str s => intro _; rfl
      | arr l => intro _; rfl
  · rcases payload with _ | j
    · intro h
      cases h
    · cases j with
      | obj fields =>
        by_cases hn : isNullJ (pyGet fields "value" Json.null) = true
        · intro h
          simp [insert_data, hn] at h
        · rcases hmt : toSql (pyGet fields "timestamp" (Json.num receipt)) with _ | mtS <;>
            rcases hv : toSql (pyGet fields "value" Json.null) with _ | vS <;>
            simp [insert_data, hn, hmt, hv]
      | null => intro h; cases h
      | bool b => intro h; cases h
      | num q => intro h; cases h
      | str s => intro h; cases h
      | arr l => intro h; cases h

/-- Witness for the amended C5: a payload with numeric `timestamp` and
`value` is accepted and appended with the payload's own timestamp. -/
theorem ingest_policy_characterization_witness :
    insert_data "sensors/t"
        (some (Json.obj [("timestamp", Json.num 5), ("value", Json.num 7)])) 3 []
      = ([⟨"sensors/t", SqlValue.real 5, SqlValue.real 7⟩], Diag.saved) :=
  (ingest_policy_characterization "sensors/t"
      (some (Json.obj [("timestamp", Json.num 5), ("value", Json.num 7)])) 3 []).2.2.1
    [("timestamp", Json.num 5), ("value", Json.num 7)]
    (Json.num 7) (SqlValue.real 5) (SqlValue.real 7)
    rfl rfl (fun h => Json.noConfusion h) rfl rfl

/-- C6: round-trip.  A telemetry record the agent encodes
(`send_sensor_data` while connected) and the ingestor accepts yields a
stored row whose `value` is exactly the record's value — the only rounding
anywhere is the 2-decimal rounding already applied to the sample before it
became the record's value — and whose `measurement_time` is exactly the
record's `timestamp`. -/
theorem telemetry_roundtrip_exact (pfx stype : String) (v ts receipt : ℚ)
    (store : List Row) :
    (send_sensor_data true pfx stype v ts).map
        (fun tp => insert_data tp.1 (some tp.2) receipt store)
      = some (store ++ [⟨pfx ++ "/" ++ stype, SqlValue.real ts, SqlValue.real v⟩],
              Diag.saved) := rfl

/-- C8: `send_command` publishes at most once per call: with the bus not
reporting connected it fails with the not-connected result and performs no
publish; connected, it performs exactly one publish, to topic
`commands/{target}`, with no internal retry whatever the broker's return
code. -/
theorem dispatch_single_publish_or_not_connected (connected : Bool)
    (target : String) (data : Json) (rcOk : Bool) :
    (send_command connected target data rcOk).1.length ≤ 1
    ∧ (connected = false →
        send_command connected target data rcOk = ([], SendResult.notConnected))
    ∧ (connected = true →
        (send_command connected target data rcOk).1 = [("commands/" ++ target, data)]) := by
  cases connected <;> simp [send_command]

/-- Witness for C8 on the sensor `temperature`, in both connection
states. -/
theorem dispatch_single_publish_or_not_connected_witness :
    send_command false "temperature" (Json.obj [("command", Json.str "stop")]) true
        = ([], SendResult.notConnected)
    ∧ (send_command true "temperature" (Json.obj [("command", Json.str "stop")]) true).1
        = [("commands/" ++ "temperature", Json.obj [("command", Json.str "stop")])] :=
  ⟨(dispatch_single_publish_or_not_connected false "temperature"
      (Json.obj [("command", Json.str "stop")]) true).2.1 rfl,
   (dispatch_single_publish_or_not_connected true "temperature"
      (Json.obj [("command", Json.str "stop")]) true).2.2 rfl⟩

/-- C10 counterexample: the payload `{"value": []}` is valid JSON whose
`value` field is present and not null, yet the ingestor does not append a
row: binding a Python list as an SQL parameter raises, the generic except
branch reports a DB error, and the store is unchanged. -/
theorem nonscalar_value_rejected_cex :
    insert_data "sensors/t" (some (Json.obj [("value", Json.arr [])])) 0 []
        = ([], Diag.dbError)
    ∧ isNullJ (pyGet [("value", Json.arr [])] "value" Json.null) = false :=
  ⟨rfl, rfl⟩

/-- C10 amended: a present, non-null `value` of a scalar JSON type is
accepted even when non-numeric — a (non-numeric) string is stored as text
and a boolean as the REAL 1/0 the integer binding becomes in the REAL
column — while a present array value fails parameter binding and is
rejected with the DB-error diagnostic, and a null value is rejected as
missing; in the two rejecting cases no row is appended. -/
theorem nonnumeric_scalar_value_stored (topic : String) (receipt : ℚ)
    (store : List Row) (b : Bool) :
    insert_data topic (some (Json.obj [("value", Json.str "abc")])) receipt store
        = (store ++ [⟨topic, SqlValue.real receipt, SqlValue.text "abc"⟩], Diag.saved)
    ∧ insert_data topic (some (Json.obj [("value", Json.bool b)])) receipt store
        = (store ++ [⟨topic, SqlValue.real receipt, SqlValue.real (if b then 1 else 0)⟩],
           Diag.saved)
    ∧ insert_data topic (some (Json.obj [("value", Json.arr [])])) receipt store
        = (store, Diag.dbError)
    ∧ insert_data topic (some (Json.obj [("value", Json.null)])) receipt store
        = (store, Diag.missingField) :=
  ⟨rfl, rfl, rfl, rfl⟩
